import Mathlib

/-!
Verification development for the supermarket delivery backend
(src/src/server.ts and its database schema).

The definitions below are a shallow embedding of the order lifecycle and
warehouse fulfillment engine: the stock ledger endpoints, the pick-task
workflow, the courier assignment policy and the order state machine.
Database tables are modelled as Lean lists of records; each HTTP handler
becomes a pure function from a database state (plus the request data) to
the new database state and a response value.  SQL integer columns are
modelled as Int, serial ids as Nat, timestamps as abstract Nat ticks.
Monetary amounts are modelled in cents (no claim depends on rounding).
-/

namespace Supermarket

/-- Order status column values (orders.status). -/
inductive OrderStatus
  | pending
  | assigned
  | picked_up
  | on_the_way
  | delivered
  | cancelled
deriving DecidableEq, Repr

/-- Courier availability column values (couriers.status). -/
inductive CourierStatus
  | offline
  | available
  | busy
deriving DecidableEq, Repr

/-- Courier verification column values (couriers.verification_status). -/
inductive VerifStatus
  | pending
  | submitted
  | approved
  | rejected
deriving DecidableEq, Repr

/-- Pick task status column values (pick_tasks.status). -/
inductive TaskStatus
  | new
  | in_progress
  | done
  | cancelled
deriving DecidableEq, Repr

/-- User roles (types.ts UserRole). -/
inductive Role
  | customer
  | courier
  | admin
deriving DecidableEq, Repr

/-- stock_movements.movement_type values. -/
inductive MovementType
  | receive
  | writeoff
  | reserve
  | release
  | pick
deriving DecidableEq, Repr

/-- A users row (only the fields the modelled handlers read). -/
structure User where
  id : Nat
  role : Role
deriving DecidableEq, Repr

/-- A couriers row. -/
structure Courier where
  id : Nat
  userId : Nat
  vehicleType : Option String
  status : CourierStatus
  verificationStatus : VerifStatus
  transportLicense : Option String
  vehicleRegistrationNumber : Option String
  techPassportImageUrl : Option String
  maxActiveOrders : Nat
deriving DecidableEq, Repr

/-- JS truthiness of a nullable text column: null and the empty string are falsy. -/
def truthyStr : Option String → Bool
  | none => false
  | some s => !(s = "")

/-- courierEligible (server.ts lines 250-262): approved verification and all
three evidence fields present (JS Boolean coercion on each text field). -/
def courierEligible (c : Courier) : Bool :=
  decide (c.verificationStatus = VerifStatus.approved) &&
    truthyStr c.transportLicense &&
    truthyStr c.vehicleRegistrationNumber &&
    truthyStr c.techPassportImageUrl

/-- An orders row. -/
structure Order where
  id : Nat
  userId : Nat
  status : OrderStatus
  totalCents : Int
  assignedCourierId : Option Nat
deriving DecidableEq, Repr

/-- An order_items row. -/
structure OrderItem where
  orderId : Nat
  productId : Nat
  productName : String
  quantity : Int
  unitPriceCents : Int
deriving DecidableEq, Repr

/-- An order_events row. -/
structure OrderEvent where
  orderId : Nat
  status : OrderStatus
  comment : Option String
  createdBy : Option Nat
deriving DecidableEq, Repr

/-- A products row (availability fields only). -/
structure Product where
  id : Nat
  name : String
  priceCents : Int
  inStock : Bool
  stockQuantity : Int
deriving DecidableEq, Repr

/-- A warehouses row. -/
structure Warehouse where
  id : Nat
  code : String
deriving DecidableEq, Repr

/-- A warehouse_stock row. -/
structure WarehouseStock where
  warehouseId : Nat
  productId : Nat
  quantity : Int
  reserved_quantity : Int
deriving DecidableEq, Repr

/-- A stock_movements row. -/
structure StockMovement where
  warehouseId : Nat
  productId : Nat
  movementType : MovementType
  quantity : Int
deriving DecidableEq, Repr

/-- A pick_tasks row. -/
structure PickTask where
  id : Nat
  orderId : Nat
  warehouseId : Nat
  status : TaskStatus
  assignedTo : Option Nat
  createdBy : Nat
  startedAt : Option Nat
  completedAt : Option Nat
deriving DecidableEq, Repr

/-- A pick_task_items row. -/
structure PickTaskItem where
  taskId : Nat
  productId : Nat
  productName : String
  requestedQty : Int
  pickedQty : Int
deriving DecidableEq, Repr

/-- A cart_items row (joined quantity only; product data is looked up). -/
structure CartItem where
  userId : Nat
  productId : Nat
  quantity : Int
deriving DecidableEq, Repr

/-- The relational store, one list per table. -/
structure Db where
  users : List User
  products : List Product
  warehouses : List Warehouse
  stock : List WarehouseStock
  movements : List StockMovement
  orders : List Order
  orderItems : List OrderItem
  orderEvents : List OrderEvent
  couriers : List Courier
  tasks : List PickTask
  taskItems : List PickTaskItem
  cartItems : List CartItem
deriving DecidableEq, Repr

/-! ## Stock ledger: single row semantics

Each of the five mutating ledger operations performs, inside its
transaction, a guarded read-modify-write of one warehouse_stock row
(server.ts lines 1272-1434 for receive/writeoff/reserve; lines 1594-1675
for the commit-on-done and release-on-cancel loops of the pick task
endpoint).  applyOp is that row-level semantics: none means the operation
was rejected (endpoint validation quantity <= 0, insufficient available
stock, or insufficient reservation) and the row is unchanged. -/

/-- Available stock of a row: max(quantity - reserved, 0), as computed by the
writeoff/reserve/pick-task handlers. -/
def availableOf (q r : Int) : Int := max (q - r) 0

/-- A ledger operation on one (warehouse, product) row, with its quantity.
Quantities are Nat: the stock endpoints reject quantity <= 0 and the
pick-task item quantities are positive by the schema check. -/
inductive LedgerOp
  | receive (qty : Nat)
  | writeoff (qty : Nat)
  | reserve (qty : Nat)
  | release (qty : Nat)
  | commit (qty : Nat)
deriving DecidableEq, Repr

/-- Row-level result of one ledger operation: some = the updated row,
none = rejected, row untouched. -/
def applyOp : LedgerOp → WarehouseStock → Option WarehouseStock
  | .receive q, r =>
      if q = 0 then none
      else some { r with quantity := r.quantity + q }
  | .writeoff q, r =>
      if q = 0 then none
      else if availableOf r.quantity r.reserved_quantity < q then none
      else some { r with quantity := r.quantity - q }
  | .reserve q, r =>
      if q = 0 then none
      else if availableOf r.quantity r.reserved_quantity < q then none
      else some { r with reserved_quantity := r.reserved_quantity + q }
  | .release q, r =>
      if r.reserved_quantity < q then none
      else some { r with reserved_quantity := r.reserved_quantity - q }
  | .commit q, r =>
      if r.quantity < q ∨ r.reserved_quantity < q then none
      else some { r with quantity := r.quantity - q, reserved_quantity := r.reserved_quantity - q }

/-- Apply a sequence of ledger operations; a rejected operation leaves the
row unchanged (the handler rolls back and answers 400). -/
def applyOps (ops : List LedgerOp) (r : WarehouseStock) : WarehouseStock :=
  ops.foldl (fun r op => (applyOp op r).getD r) r

/-- The lazily created initial row (ensureWarehouseStockRow, lines 338-347):
quantity 0, reserved_quantity 0. -/
def initRow (w p : Nat) : WarehouseStock :=
  { warehouseId := w, productId := p, quantity := 0, reserved_quantity := 0 }

/-- Ledger conservation invariant of one row. -/
def rowInvariant (r : WarehouseStock) : Prop :=
  0 ≤ r.reserved_quantity ∧ r.reserved_quantity ≤ r.quantity

instance (r : WarehouseStock) : Decidable (rowInvariant r) := by
  unfold rowInvariant; infer_instance

theorem applyOp_invariant (op : LedgerOp) (r : WarehouseStock) (h : rowInvariant r) :
    rowInvariant ((applyOp op r).getD r) := by
  obtain ⟨h0, h1⟩ := h
  cases op with
  | receive q =>
      by_cases hq : q = 0 <;> simp [applyOp, hq, rowInvariant] at * <;> omega
  | writeoff q =>
      by_cases hq : q = 0
      · simp [applyOp, hq, rowInvariant]; omega
      · by_cases hav : availableOf r.quantity r.reserved_quantity < q
        · simp [applyOp, hq, hav, rowInvariant]; omega
        · simp [applyOp, hq, hav, rowInvariant]
          simp [availableOf] at hav
          omega
  | reserve q =>
      by_cases hq : q = 0
      · simp [applyOp, hq, rowInvariant]; omega
      · by_cases hav : availableOf r.quantity r.reserved_quantity < q
        · simp [applyOp, hq, hav, rowInvariant]; omega
        · simp [applyOp, hq, hav, rowInvariant]
          simp [availableOf] at hav
          omega
  | release q =>
      by_cases hr : r.reserved_quantity < q <;>
        simp [applyOp, hr, rowInvariant] <;> omega
  | commit q =>
      by_cases hr : r.quantity < q ∨ r.reserved_quantity < q <;>
        simp [applyOp, hr, rowInvariant] <;> omega

theorem applyOps_invariant (ops : List LedgerOp) (r : WarehouseStock) (h : rowInvariant r) :
    rowInvariant (applyOps ops r) := by
  induction ops generalizing r with
  | nil => simpa [applyOps] using h
  | cons op rest ih =>
      simp only [applyOps, List.foldl_cons]
      exact ih _ (applyOp_invariant op r h)

/-- C3: For every sequence of receive/writeoff/reserve/release/commit
operations applied to one (warehouse, product) row starting from its lazily
created initial state (quantity 0, reserved 0), the invariant
0 <= reserved_quantity <= quantity holds after every operation; an operation
that fails its precondition leaves the row unchanged (encoded by getD). -/
theorem ledger_conservation (w p : Nat) (ops : List LedgerOp) :
    rowInvariant (applyOps ops (initRow w p)) :=
  applyOps_invariant ops (initRow w p) (by simp [rowInvariant, initRow])

/-! ## Query parameter binding

node-postgres drives the PostgreSQL extended query protocol: the prepared
statement derives its parameter count from the highest $n placeholder in
the SQL text, and the bind phase must supply exactly that many values;
otherwise the statement fails and the surrounding transaction aborts. -/

/-- Parameter count a statement requires: the highest placeholder index. -/
def requiredParams (placeholderRefs : List Nat) : Nat :=
  placeholderRefs.foldr Nat.max 0

/-- Binding succeeds iff the supplied value count matches the requirement. -/
def bindOk (placeholderRefs : List Nat) (suppliedCount : Nat) : Bool :=
  decide (suppliedCount = requiredParams placeholderRefs)

/-- Placeholders of the UPDATE products statement inside
syncProductAvailabilityFromWarehouse (server.ts lines 364-373):
stock_quantity = $1, CASE WHEN $1 <= 0 ..., WHERE id = $3. -/
def syncUpdatePlaceholders : List Nat := [1, 1, 3]

/-- The call site passes the value list [available, productId] (line 372). -/
def syncUpdateSuppliedCount : Nat := 2

/-- Runtime errors surfaced by the modelled SQL layer. -/
inductive SqlError
  | bindMismatch
deriving DecidableEq, Repr

/-! ## Database helpers -/

/-- Find a warehouse_stock row by (warehouse_id, product_id). -/
def findStock (s : Db) (w p : Nat) : Option WarehouseStock :=
  s.stock.find? (fun r => decide (r.warehouseId = w) && decide (r.productId = p))

/-- ensureWarehouseStockRow (lines 338-347): insert-if-absent with
quantity 0, reserved_quantity 0. -/
def ensureWarehouseStockRow (s : Db) (w p : Nat) : Db :=
  match findStock s w p with
  | some _ => s
  | none => { s with stock := s.stock ++ [initRow w p] }

/-- Map an update over the (unique-keyed) warehouse_stock row. -/
def updateStock (s : Db) (w p : Nat) (f : WarehouseStock → WarehouseStock) : Db :=
  { s with stock := s.stock.map (fun r =>
      if r.warehouseId = w ∧ r.productId = p then f r else r) }

/-- getDefaultWarehouseId (lines 325-336): the MAIN warehouse, created on
first use.  Returns the possibly extended state and the id. -/
def nextWarehouseId (s : Db) : Nat :=
  s.warehouses.foldr (fun w m => Nat.max w.id m) 0 + 1

def getDefaultWarehouseId (s : Db) : Db × Nat :=
  match s.warehouses.find? (fun w => decide (w.code = "MAIN")) with
  | some w => (s, w.id)
  | none =>
      let wid := nextWarehouseId s
      ({ s with warehouses := s.warehouses ++ [{ id := wid, code := "MAIN" }] }, wid)

/-- Aggregate SELECT of syncProductAvailabilityFromWarehouse (lines 350-359):
sums quantity and reserved_quantity over all warehouses for the product. -/
def productTotals (s : Db) (productId : Nat) : Int × Int :=
  ((s.stock.filter (fun r => decide (r.productId = productId))).foldr
      (fun r acc => (acc.1 + r.quantity, acc.2 + r.reserved_quantity)) (0, 0))

/-- syncProductAvailabilityFromWarehouse (lines 349-374).  The aggregate is
computed, then the UPDATE products statement runs; its bind fails when the
supplied value count does not match the placeholders, aborting the caller
transaction.  The intended write sets stock_quantity to
max(total quantity - total reserved, 0) and forces in_stock to FALSE when
that value is <= 0 (leaving in_stock alone otherwise). -/
def syncProductAvailabilityFromWarehouse (s : Db) (productId : Nat) : Except SqlError Db :=
  let t := productTotals s productId
  let available := max (t.1 - t.2) 0
  if bindOk syncUpdatePlaceholders syncUpdateSuppliedCount then
    .ok { s with products := s.products.map (fun p =>
      if p.id = productId then
        { p with stockQuantity := available,
                 inStock := if available ≤ 0 then false else p.inStock }
      else p) }
  else
    .error SqlError.bindMismatch

theorem syncUpdate_bind_fails :
    bindOk syncUpdatePlaceholders syncUpdateSuppliedCount = false := by decide

theorem sync_always_fails (s : Db) (productId : Nat) :
    syncProductAvailabilityFromWarehouse s productId = .error SqlError.bindMismatch := by
  simp [syncProductAvailabilityFromWarehouse, syncUpdate_bind_fails]

/-! ## Stock ledger endpoints

POST /api/admin/stock/receive, /writeoff, /reserve (lines 1272-1434).
Auth and permission middleware are outside the modelled core; actor is the
authenticated admin id.  Each handler runs one transaction; any error
(including the availability recompute failing its bind) rolls the whole
transaction back and answers 500. -/

inductive StockResult
  | created
  | badRequest
  | insufficient (available : Int)
  | serverError (e : SqlError)
deriving DecidableEq, Repr

/-- POST /api/admin/stock/receive (lines 1272-1310). -/
def stockReceive (s : Db) (actor : Nat) (warehouseId : Option Nat) (productId : Nat)
    (quantity : Int) : Db × StockResult :=
  if productId = 0 ∨ quantity ≤ 0 then (s, .badRequest)
  else
    let (s1, wid) :=
      match warehouseId with
      | some w => (s, w)
      | none => getDefaultWarehouseId s
    let s2 : Db := ensureWarehouseStockRow s1 wid productId
    let s3 : Db := updateStock s2 wid productId
      (fun r => { r with quantity := r.quantity + quantity })
    let s4 : Db := { s3 with movements := s3.movements ++
      [{ warehouseId := wid, productId := productId, movementType := .receive, quantity := quantity }] }
    match syncProductAvailabilityFromWarehouse s4 productId with
    | .ok s5 => (s5, .created)
    | .error e => (s, .serverError e)

/-- POST /api/admin/stock/writeoff (lines 1312-1365). -/
def stockWriteoff (s : Db) (actor : Nat) (warehouseId : Option Nat) (productId : Nat)
    (quantity : Int) : Db × StockResult :=
  if productId = 0 ∨ quantity ≤ 0 then (s, .badRequest)
  else
    let (s1, wid) :=
      match warehouseId with
      | some w => (s, w)
      | none => getDefaultWarehouseId s
    let s2 : Db := ensureWarehouseStockRow s1 wid productId
    let row := (findStock s2 wid productId).getD (initRow wid productId)
    let available := availableOf row.quantity row.reserved_quantity
    if available < quantity then (s, .insufficient available)
    else
      let s3 : Db := updateStock s2 wid productId
        (fun r => { r with quantity := r.quantity - quantity })
      let s4 : Db := { s3 with movements := s3.movements ++
        [{ warehouseId := wid, productId := productId, movementType := .writeoff, quantity := quantity }] }
      match syncProductAvailabilityFromWarehouse s4 productId with
      | .ok s5 => (s5, .created)
      | .error e => (s, .serverError e)

/-- POST /api/admin/stock/reserve (lines 1367-1434). -/
def stockReserve (s : Db) (actor : Nat) (warehouseId : Option Nat) (productId : Nat)
    (quantity : Int) : Db × StockResult :=
  if productId = 0 ∨ quantity ≤ 0 then (s, .badRequest)
  else
    let (s1, wid) :=
      match warehouseId with
      | some w => (s, w)
      | none => getDefaultWarehouseId s
    let s2 : Db := ensureWarehouseStockRow s1 wid productId
    let row := (findStock s2 wid productId).getD (initRow wid productId)
    let available := availableOf row.quantity row.reserved_quantity
    if available < quantity then (s, .insufficient available)
    else
      let s3 : Db := updateStock s2 wid productId
        (fun r => { r with reserved_quantity := r.reserved_quantity + quantity })
      let s4 : Db := { s3 with movements := s3.movements ++
        [{ warehouseId := wid, productId := productId, movementType := .reserve, quantity := quantity }] }
      match syncProductAvailabilityFromWarehouse s4 productId with
      | .ok s5 => (s5, .created)
      | .error e => (s, .serverError e)

/-- An empty database with one product (id 1, price 1.00, in stock, aggregate
stock_quantity 0) and the MAIN warehouse, as after a fresh bootstrap. -/
def db0 : Db :=
  { users := [{ id := 9, role := Role.admin }]
    products := [{ id := 1, name := "P1", priceCents := 100, inStock := true, stockQuantity := 0 }]
    warehouses := [{ id := 1, code := "MAIN" }]
    stock := []
    movements := []
    orders := []
    orderItems := []
    orderEvents := []
    couriers := []
    tasks := []
    taskItems := []
    cartItems := [] }

/-- C2: false on the code as shipped.  The availability recompute binds two
values to a statement whose placeholders require three ($1 and $3 with no
$2), so every mutating ledger operation aborts and rolls back: a receive of
5 units on the fresh database answers 500 and leaves the ledger, the
product aggregate and the movement log untouched, instead of establishing
stock_quantity = max(sum quantity - sum reserved, 0) = 5. -/
theorem stock_receive_rolls_back :
    stockReceive db0 9 (some 1) 1 5 = (db0, StockResult.serverError SqlError.bindMismatch) := by
  decide

/-! ## Pick-task workflow

POST /api/admin/pick-tasks/from-order (lines 1436-1539) and
PATCH /api/admin/pick-tasks/:taskId (lines 1541-1701). -/

def nextTaskId (s : Db) : Nat :=
  s.tasks.foldr (fun t m => Nat.max t.id m) 0 + 1

/-- Abort reasons inside the item loop of pick-task creation. -/
inductive CreateAbort
  | short (productId : Nat) (productName : String) (requested available : Int)
  | sql (e : SqlError)
deriving DecidableEq, Repr

/-- The per-item loop of pick-task creation (lines 1485-1529): lock the
stock row, check availability, reserve, insert the task item and the
movement, recompute availability. -/
def pickCreateLoop (wid taskId : Nat) : Db → List OrderItem → Except CreateAbort Db
  | s, [] => .ok s
  | s, item :: rest =>
      let s1 : Db := ensureWarehouseStockRow s wid item.productId
      let row := (findStock s1 wid item.productId).getD (initRow wid item.productId)
      let available := availableOf row.quantity row.reserved_quantity
      if available < item.quantity then
        .error (.short item.productId item.productName item.quantity available)
      else
        let s2 : Db := updateStock s1 wid item.productId
          (fun r => { r with reserved_quantity := r.reserved_quantity + item.quantity })
        let s3 : Db := { s2 with taskItems := s2.taskItems ++
          [{ taskId := taskId, productId := item.productId, productName := item.productName,
             requestedQty := item.quantity, pickedQty := 0 }] }
        let s4 : Db := { s3 with movements := s3.movements ++
          [{ warehouseId := wid, productId := item.productId, movementType := .reserve,
             quantity := item.quantity }] }
        match syncProductAvailabilityFromWarehouse s4 item.productId with
        | .ok s5 => pickCreateLoop wid taskId s5 rest
        | .error e => .error (.sql e)

inductive CreateTaskResult
  | created (taskId : Nat)
  | badOrderId
  | duplicateActiveTask (existingId : Nat)
  | emptyOrder
  | insufficientStock (productId : Nat) (productName : String) (requested available : Int)
  | serverError (e : SqlError)
deriving DecidableEq, Repr

/-- POST /api/admin/pick-tasks/from-order (lines 1436-1539).  Any abort
rolls the whole transaction back to the initial state. -/
def pickTaskFromOrder (s : Db) (actor : Nat) (orderId : Nat) (warehouseId : Option Nat)
    (assignedTo : Option Nat) : Db × CreateTaskResult :=
  if orderId = 0 then (s, .badOrderId)
  else
    let (s1, wid) :=
      match warehouseId with
      | some w => (s, w)
      | none => getDefaultWarehouseId s
    match s1.tasks.find? (fun t => decide (t.orderId = orderId) &&
        (decide (t.status = TaskStatus.new) || decide (t.status = TaskStatus.in_progress))) with
    | some t => (s, .duplicateActiveTask t.id)
    | none =>
        let items := s1.orderItems.filter (fun i => decide (i.orderId = orderId))
        if items.isEmpty then (s, .emptyOrder)
        else
          let tid := nextTaskId s1
          let s2 : Db := { s1 with tasks := s1.tasks ++
            [{ id := tid, orderId := orderId, warehouseId := wid, status := TaskStatus.new,
               assignedTo := assignedTo, createdBy := actor, startedAt := none, completedAt := none }] }
          match pickCreateLoop wid tid s2 items with
          | .ok s3 => (s3, .created tid)
          | .error (.short p n req av) => (s, .insufficientStock p n req av)
          | .error (.sql e) => (s, .serverError e)

/-- Abort reasons inside the item loops of the pick-task PATCH handler. -/
inductive PatchAbort
  | doneShort (productId : Nat)
  | cancelShort (productId : Nat)
  | sql (e : SqlError)
deriving DecidableEq, Repr

/-- Commit loop of the transition to done (lines 1594-1637): for every item
both quantity and reserved_quantity drop by the requested quantity, the
item picked_qty is set to requested_qty, a pick movement is logged, and
the availability recompute runs. -/
def pickDoneLoop (wid taskId : Nat) : Db → List PickTaskItem → Except PatchAbort Db
  | s, [] => .ok s
  | s, item :: rest =>
      let row := (findStock s wid item.productId).getD (initRow wid item.productId)
      if row.quantity < item.requestedQty ∨ row.reserved_quantity < item.requestedQty then
        .error (.doneShort item.productId)
      else
        let s1 : Db := updateStock s wid item.productId
          (fun r => { r with quantity := r.quantity - item.requestedQty,
                             reserved_quantity := r.reserved_quantity - item.requestedQty })
        let s2 : Db := { s1 with taskItems := s1.taskItems.map (fun i =>
          if i.taskId = taskId ∧ i.productId = item.productId then
            { i with pickedQty := i.requestedQty } else i) }
        let s3 : Db := { s2 with movements := s2.movements ++
          [{ warehouseId := wid, productId := item.productId, movementType := .pick,
             quantity := item.requestedQty }] }
        match syncProductAvailabilityFromWarehouse s3 item.productId with
        | .ok s4 => pickDoneLoop wid taskId s4 rest
        | .error e => .error (.sql e)

/-- Release loop of the transition to cancelled (lines 1640-1675). -/
def pickCancelLoop (wid taskId : Nat) : Db → List PickTaskItem → Except PatchAbort Db
  | s, [] => .ok s
  | s, item :: rest =>
      let row := (findStock s wid item.productId).getD (initRow wid item.productId)
      if row.reserved_quantity < item.requestedQty then
        .error (.cancelShort item.productId)
      else
        let s1 : Db := updateStock s wid item.productId
          (fun r => { r with reserved_quantity := r.reserved_quantity - item.requestedQty })
        let s2 : Db := { s1 with movements := s1.movements ++
          [{ warehouseId := wid, productId := item.productId, movementType := .release,
             quantity := item.requestedQty }] }
        match syncProductAvailabilityFromWarehouse s2 item.productId with
        | .ok s3 => pickCancelLoop wid taskId s3 rest
        | .error e => .error (.sql e)

inductive PatchTaskResult
  | badTaskId
  | notFound
  | terminalTaskImmutable
  | wrongSourceForDone
  | wrongSourceForCancel
  | insufficientReserve (productId : Nat)
  | inconsistentReserve (productId : Nat)
  | serverError (e : SqlError)
  | updated
deriving DecidableEq, Repr

/-- The final UPDATE pick_tasks statement (lines 1679-1691): status and
assignee are written, started_at is set once on first entry to in_progress,
completed_at is (re)written whenever the written status is terminal. -/
def applyTaskPatchRow (taskId : Nat) (target : TaskStatus) (nextAssigned : Option Nat)
    (now : Nat) (t : PickTask) : PickTask :=
  if t.id = taskId then
    { t with
        status := target,
        assignedTo := nextAssigned,
        startedAt :=
          if target = TaskStatus.in_progress ∧ t.startedAt = none then some now
          else t.startedAt,
        completedAt :=
          if target = TaskStatus.done ∨ target = TaskStatus.cancelled then some now
          else t.completedAt }
  else t

/-- PATCH /api/admin/pick-tasks/:taskId (lines 1541-1701).  assignedTo is
the request field: none = absent (keep current), some v = set to v (which
may be null).  now is the transaction timestamp. -/
def pickTaskPatch (s : Db) (actor taskId : Nat) (target : TaskStatus)
    (assignedTo : Option (Option Nat)) (now : Nat) : Db × PatchTaskResult :=
  if taskId = 0 then (s, .badTaskId)
  else
    match s.tasks.find? (fun t => decide (t.id = taskId)) with
    | none => (s, .notFound)
    | some task =>
        if (task.status = TaskStatus.done ∨ task.status = TaskStatus.cancelled) ∧
            task.status ≠ target then
          (s, .terminalTaskImmutable)
        else
          let items := s.taskItems.filter (fun i => decide (i.taskId = taskId))
          if target = TaskStatus.done ∧ ¬(task.status = TaskStatus.new ∨
              task.status = TaskStatus.in_progress ∨ task.status = TaskStatus.done) then
            (s, .wrongSourceForDone)
          else if target = TaskStatus.cancelled ∧ ¬(task.status = TaskStatus.new ∨
              task.status = TaskStatus.in_progress ∨ task.status = TaskStatus.cancelled) then
            (s, .wrongSourceForCancel)
          else
            let afterLoops : Except PatchAbort Db :=
              if target = TaskStatus.done ∧ task.status ≠ TaskStatus.done then
                pickDoneLoop task.warehouseId taskId s items
              else if target = TaskStatus.cancelled ∧ task.status ≠ TaskStatus.cancelled then
                pickCancelLoop task.warehouseId taskId s items
              else .ok s
            match afterLoops with
            | .error (.doneShort p) => (s, .insufficientReserve p)
            | .error (.cancelShort p) => (s, .inconsistentReserve p)
            | .error (.sql e) => (s, .serverError e)
            | .ok s2 =>
                let nextAssigned := assignedTo.getD task.assignedTo
                let f := applyTaskPatchRow taskId target nextAssigned now
                let s3 : Db := { s2 with tasks := s2.tasks.map f }
                (s3, .updated)

/-! ## Pick-task claim states and theorems -/

/-- State for the all-or-nothing reservation scenario: order 1 has items
(P1, 5) and (P2, 3); the MAIN warehouse holds 5 of P1 and only 2 of P2. -/
def db1 : Db :=
  { users := [{ id := 9, role := Role.admin }, { id := 10, role := Role.customer }]
    products :=
      [{ id := 1, name := "P1", priceCents := 100, inStock := true, stockQuantity := 5 },
       { id := 2, name := "P2", priceCents := 100, inStock := true, stockQuantity := 2 }]
    warehouses := [{ id := 1, code := "MAIN" }]
    stock :=
      [{ warehouseId := 1, productId := 1, quantity := 5, reserved_quantity := 0 },
       { warehouseId := 1, productId := 2, quantity := 2, reserved_quantity := 0 }]
    movements := []
    orders := [{ id := 1, userId := 10, status := OrderStatus.pending, totalCents := 800,
                 assignedCourierId := none }]
    orderItems :=
      [{ orderId := 1, productId := 1, productName := "P1", quantity := 5, unitPriceCents := 100 },
       { orderId := 1, productId := 2, productName := "P2", quantity := 3, unitPriceCents := 100 }]
    orderEvents := []
    couriers := []
    tasks := []
    taskItems := []
    cartItems := [] }

/-- C5: the rollback half of the claim holds (the post-call state equals the
pre-call state: no pick task, P1 reservation rolled back), but the failure
is not reported as the claimed shortage of P2 (requested 3, available 2):
the availability recompute after reserving P1 fails its parameter bind, so
the handler aborts with a generic 500 before the P2 check is reached. -/
theorem pick_create_shortage_not_reported :
    pickTaskFromOrder db1 9 1 (some 1) none =
      (db1, CreateTaskResult.serverError SqlError.bindMismatch) := by
  decide

/-- State for the commit-on-done scenario: task 1 is new for order 1 with one
item (P1, requested 2); the warehouse row holds quantity 5, reserved 2. -/
def db2 : Db :=
  { users := [{ id := 9, role := Role.admin }]
    products := [{ id := 1, name := "P1", priceCents := 100, inStock := true, stockQuantity := 3 }]
    warehouses := [{ id := 1, code := "MAIN" }]
    stock := [{ warehouseId := 1, productId := 1, quantity := 5, reserved_quantity := 2 }]
    movements := []
    orders := [{ id := 1, userId := 10, status := OrderStatus.pending, totalCents := 200,
                 assignedCourierId := none }]
    orderItems := []
    orderEvents := []
    couriers := []
    tasks := [{ id := 1, orderId := 1, warehouseId := 1, status := TaskStatus.new,
                assignedTo := none, createdBy := 9, startedAt := none, completedAt := none }]
    taskItems := [{ taskId := 1, productId := 1, productName := "P1", requestedQty := 2,
                    pickedQty := 0 }]
    cartItems := [] }

/-- C7: transitioning the task to done from new, with ample stock and
reservation, does not commit anything: the availability recompute inside
the item loop fails its parameter bind, the transaction rolls back and the
handler answers 500, leaving quantity, reserved_quantity, picked_qty and
completed_at untouched. -/
theorem pick_done_commit_fails :
    pickTaskPatch db2 9 1 TaskStatus.done none 50 =
      (db2, PatchTaskResult.serverError SqlError.bindMismatch) := by
  decide

/-- State for terminal pick-task requests: task 1 is done (assignee user 7,
completed at tick 10) with its single item fully picked. -/
def db3 : Db :=
  { users := [{ id := 9, role := Role.admin }]
    products := [{ id := 1, name := "P1", priceCents := 100, inStock := true, stockQuantity := 3 }]
    warehouses := [{ id := 1, code := "MAIN" }]
    stock := [{ warehouseId := 1, productId := 1, quantity := 3, reserved_quantity := 0 }]
    movements := []
    orders := [{ id := 1, userId := 10, status := OrderStatus.pending, totalCents := 200,
                 assignedCourierId := none }]
    orderItems := []
    orderEvents := []
    couriers := []
    tasks := [{ id := 1, orderId := 1, warehouseId := 1, status := TaskStatus.done,
                assignedTo := some 7, createdBy := 9, startedAt := some 5, completedAt := some 10 }]
    taskItems := [{ taskId := 1, productId := 1, productName := "P1", requestedQty := 2,
                    pickedQty := 2 }]
    cartItems := [] }

/-- C6 is false as stated: re-requesting done on the already-done task 1 is
accepted, but it is not a no-op that changes nothing — the request may
carry a new assignee (here user 8) which is written, and completed_at is
overwritten with the current timestamp. -/
theorem terminal_rerequest_not_noop :
    (pickTaskPatch db3 9 1 TaskStatus.done (some (some 8)) 99).2 = PatchTaskResult.updated ∧
    (pickTaskPatch db3 9 1 TaskStatus.done (some (some 8)) 99).1 ≠ db3 ∧
    (pickTaskPatch db3 9 1 TaskStatus.done (some (some 8)) 99).1.tasks =
      [{ id := 1, orderId := 1, warehouseId := 1, status := TaskStatus.done,
         assignedTo := some 8, createdBy := 9, startedAt := some 5, completedAt := some 99 }] := by
  decide

/-- C6 amended, first half: a task in done or cancelled rejects every request
for a different status with TerminalTaskImmutable and the whole state is
unchanged.  Second half: re-requesting the same terminal status is accepted
and performs no ledger operation (stock, movements and items untouched) and
no status change, but it is not a pure no-op: the assignee is overwritten
when the request carries one and completed_at is refreshed to now. -/
theorem pickTaskPatch_terminal (s : Db) (actor taskId : Nat) (target : TaskStatus)
    (a : Option (Option Nat)) (now : Nat) (task : PickTask)
    (hid : taskId ≠ 0)
    (hfind : s.tasks.find? (fun t => decide (t.id = taskId)) = some task)
    (hterm : task.status = TaskStatus.done ∨ task.status = TaskStatus.cancelled) :
    (target ≠ task.status →
      pickTaskPatch s actor taskId target a now = (s, PatchTaskResult.terminalTaskImmutable)) ∧
    (target = task.status →
      (pickTaskPatch s actor taskId target a now).2 = PatchTaskResult.updated ∧
      (pickTaskPatch s actor taskId target a now).1.stock = s.stock ∧
      (pickTaskPatch s actor taskId target a now).1.movements = s.movements ∧
      (pickTaskPatch s actor taskId target a now).1.taskItems = s.taskItems ∧
      (pickTaskPatch s actor taskId target a now).1.tasks.find?
          (fun t => decide (t.id = taskId)) =
        some { task with
                 status := target,
                 assignedTo := a.getD task.assignedTo,
                 completedAt := some now }) := by
  constructor
  · intro hne
    have hcond : (task.status = TaskStatus.done ∨ task.status = TaskStatus.cancelled) ∧
        task.status ≠ target := ⟨hterm, fun h => hne h.symm⟩
    simp only [pickTaskPatch, if_neg hid, hfind]
    rw [if_pos hcond]
  · intro heq
    subst heq
    have htid : task.id = taskId := by
      have h1 := List.find?_some hfind
      simpa using h1
    rcases hterm with h | h <;>
    · have key : pickTaskPatch s actor taskId task.status a now =
          ({ s with tasks := s.tasks.map (applyTaskPatchRow taskId task.status
              (a.getD task.assignedTo) now) },
            PatchTaskResult.updated) := by
        simp [pickTaskPatch, if_neg hid, hfind, h]
      rw [key]
      refine ⟨rfl, rfl, rfl, rfl, ?_⟩
      have hcomp : ((fun t : PickTask => decide (t.id = taskId)) ∘ (applyTaskPatchRow taskId
          task.status (a.getD task.assignedTo) now)) =
          (fun t : PickTask => decide (t.id = taskId)) := by
        funext t
        by_cases ht : t.id = taskId <;> simp [applyTaskPatchRow, ht]
      have happ : applyTaskPatchRow taskId task.status
          (a.getD task.assignedTo) now task =
          { task with
              status := task.status,
              assignedTo := a.getD task.assignedTo,
              completedAt := some now } := by
        simp [applyTaskPatchRow, htid, h]
      exact (List.find?_map _ _).trans (by rw [hcomp, hfind]; simpa using congrArg some happ)

/-! ## Courier assignment policy and order state machine

getActiveOrderCountForCourier (lines 264-275), assignCourierIfPossible
(lines 277-307), tryAssignOldestPendingOrder (lines 309-323),
POST /api/orders (lines 2422-2512), POST /api/orders/:orderId/claim
(lines 2593-2631), PATCH /api/orders/:orderId/status (lines 2666-2708),
POST /api/couriers/connect (lines 2710-2745). -/

/-- Statuses that count against a courier load (the IN list of the
active-order count query). -/
def isActiveOrderStatus (st : OrderStatus) : Bool :=
  decide (st = OrderStatus.assigned) || decide (st = OrderStatus.picked_up) ||
    decide (st = OrderStatus.on_the_way)

/-- getActiveOrderCountForCourier (lines 264-275). -/
def getActiveOrderCountForCourier (s : Db) (courierId : Nat) : Nat :=
  (s.orders.filter (fun o =>
    decide (o.assignedCourierId = some courierId) && isActiveOrderStatus o.status)).length

/-- The SELECT of assignCourierIfPossible: couriers with status available,
in storage order. -/
def availableCouriers (s : Db) : List Courier :=
  s.couriers.filter (fun c => decide (c.status = CourierStatus.available))

/-- The selection loop of assignCourierIfPossible (lines 287-294): skip
candidates at or over their max_active_orders; otherwise keep the first
candidate, replacing it only on a strictly smaller active count. -/
def selectLoop (s : Db) : Option (Nat × Nat) → List Courier → Option (Nat × Nat)
  | sel, [] => sel
  | sel, c :: rest =>
      let active := getActiveOrderCountForCourier s c.id
      if c.maxActiveOrders ≤ active then selectLoop s sel rest
      else
        match sel with
        | none => selectLoop s (some (c.id, active)) rest
        | some y =>
            if active < y.2 then selectLoop s (some (c.id, active)) rest
            else selectLoop s sel rest

/-- assignCourierIfPossible (lines 277-307).  Note the UPDATE orders
statement (line 298) has no condition beyond the order id: it writes the
courier and the assigned status unconditionally. -/
def assignCourierIfPossible (s : Db) (orderId : Nat) : Db × Option Nat :=
  match selectLoop s none (availableCouriers s) with
  | none => (s, none)
  | some sel =>
      let s1 : Db := { s with orders := s.orders.map (fun o =>
        if o.id = orderId then
          { o with assignedCourierId := some sel.1, status := OrderStatus.assigned }
        else o) }
      let createdBy := (s1.orders.find? (fun o => decide (o.id = orderId))).map (·.userId)
      let s2 : Db := { s1 with orderEvents := s1.orderEvents ++
        [{ orderId := orderId, status := OrderStatus.assigned,
           comment := some "auto-assigned", createdBy := createdBy }] }
      (s2, some sel.1)

/-- The ORDER BY id ASC LIMIT 1 of tryAssignOldestPendingOrder: the smallest
id among pending unassigned orders. -/
def oldestPendingId (s : Db) : Option Nat :=
  ((s.orders.filter (fun o =>
      o.assignedCourierId.isNone && decide (o.status = OrderStatus.pending))).map (·.id)).foldr
    (fun i acc =>
      match acc with
      | none => some i
      | some j => some (if i ≤ j then i else j)) none

/-- tryAssignOldestPendingOrder (lines 309-323). -/
def tryAssignOldestPendingOrder (s : Db) : Db × Option Nat :=
  match oldestPendingId s with
  | none => (s, none)
  | some oid => assignCourierIfPossible s oid

inductive ClaimResult
  | badOrderId
  | courierNotFound
  | notEligible
  | limitReached
  | orderUnavailable
  | claimed (orderId : Nat)
deriving DecidableEq, Repr

/-- POST /api/orders/:orderId/claim (lines 2593-2631).  The UPDATE carries
the guard: id match, status pending, assigned_courier_id IS NULL. -/
def ordersClaim (s : Db) (callerUserId orderId : Nat) : Db × ClaimResult :=
  if orderId = 0 then (s, .badOrderId)
  else
    match s.couriers.find? (fun c => decide (c.userId = callerUserId)) with
    | none => (s, .courierNotFound)
    | some courier =>
        if ¬ courierEligible courier then (s, .notEligible)
        else if courier.maxActiveOrders ≤ getActiveOrderCountForCourier s courier.id then
          (s, .limitReached)
        else
          match s.orders.find? (fun o => decide (o.id = orderId) &&
              decide (o.status = OrderStatus.pending) && o.assignedCourierId.isNone) with
          | none => (s, .orderUnavailable)
          | some _ =>
              let s1 : Db := { s with orders := s.orders.map (fun o =>
                if o.id = orderId ∧ o.status = OrderStatus.pending ∧ o.assignedCourierId = none
                then { o with status := OrderStatus.assigned,
                              assignedCourierId := some courier.id }
                else o) }
              let s2 : Db := { s1 with orderEvents := s1.orderEvents ++
                [{ orderId := orderId, status := OrderStatus.assigned,
                   comment := some "manual claim", createdBy := some callerUserId }] }
              (s2, .claimed orderId)

/-- The authenticated principal of a request. -/
structure Caller where
  id : Nat
  role : Role
deriving DecidableEq, Repr

inductive SetStatusResult
  | badRequest
  | notFound
  | forbidden
  | ok (finalOrder : Option Order)
deriving DecidableEq, Repr

/-- The write phase of the status endpoint (lines 2696-2707): update the
status, append the event, backfill the dispatch queue when the written
status is delivered or cancelled, re-read the order. -/
def patchStatusCommit (s : Db) (callerId orderId : Nat) (target : OrderStatus)
    (comment : Option String) : Db × SetStatusResult :=
  let s1 : Db := { s with orders := s.orders.map (fun o =>
    if o.id = orderId then { o with status := target } else o) }
  let s2 : Db := { s1 with orderEvents := s1.orderEvents ++
    [{ orderId := orderId, status := target, comment := comment,
       createdBy := some callerId }] }
  let s3 : Db :=
    if target = OrderStatus.delivered ∨ target = OrderStatus.cancelled then
      (tryAssignOldestPendingOrder s2).1
    else s2
  (s3, .ok (s3.orders.find? (fun o => decide (o.id = orderId))))

/-- PATCH /api/orders/:orderId/status (lines 2666-2708).  The handler never
reads the current status of the order: the gates look only at role,
ownership, courier assignment, courier eligibility and the target status.
After the write it backfills the dispatch queue when the written status is
delivered or cancelled, then re-reads the order. -/
def ordersPatchStatus (s : Db) (caller : Caller) (orderId : Nat) (target : OrderStatus)
    (comment : Option String) : Db × SetStatusResult :=
  if orderId = 0 then (s, .badRequest)
  else
    match s.orders.find? (fun o => decide (o.id = orderId)) with
    | none => (s, .notFound)
    | some order =>
        if decide (caller.role = Role.customer) &&
            (!decide (order.userId = caller.id) || !decide (target = OrderStatus.cancelled)) then
          (s, .forbidden)
        else
          let courierRow := s.couriers.find? (fun c => decide (c.userId = caller.id))
          let courierTargetOk : Bool :=
            decide (target = OrderStatus.picked_up) || decide (target = OrderStatus.on_the_way) ||
              decide (target = OrderStatus.delivered)
          if decide (caller.role = Role.courier) &&
              (match courierRow with
               | none => true
               | some c => !decide (order.assignedCourierId = some c.id) || !courierTargetOk) then
            (s, .forbidden)
          else if decide (caller.role = Role.courier) &&
              (match courierRow with
               | none => true
               | some c => !courierEligible c) then
            (s, .forbidden)
          else patchStatusCommit s caller.id orderId target comment

/-- A cart line joined with its product (the SELECT of POST /api/orders,
lines 2427-2435). -/
structure CartLine where
  productId : Nat
  quantity : Int
  name : String
  priceCents : Int
deriving DecidableEq, Repr

def cartLines (s : Db) (userId : Nat) : List CartLine :=
  (s.cartItems.filter (fun ci => decide (ci.userId = userId))).filterMap (fun ci =>
    (s.products.find? (fun p => decide (p.id = ci.productId))).map (fun p =>
      { productId := ci.productId, quantity := ci.quantity, name := p.name,
        priceCents := p.priceCents }))

def nextOrderId (s : Db) : Nat :=
  s.orders.foldr (fun o m => Nat.max o.id m) 0 + 1

inductive CreateOrderResult
  | emptyCart
  | ok (order : Option Order)
  | serverError
deriving DecidableEq, Repr

/-- The transactional part of POST /api/orders (lines 2469-2512), after the
address and coordinate validation (lines 2439-2463, not at issue in any
claim): insert the pending order, snapshot the cart into order items,
empty the cart, write the created event, COMMIT — then, outside the
transaction but inside the same try block, run the automatic assignment.
assignEnv is the environment behaviour of that follow-up call: ok means it
returned (possibly without an assignment), error means it raised (for
instance a lost database connection).  A raise lands in the catch block,
whose ROLLBACK is a no-op after COMMIT, and answers 500. -/
def ordersCreate (assignEnv : Db → Nat → Except Unit (Db × Option Nat)) (s : Db)
    (userId : Nat) : Db × CreateOrderResult :=
  let lines := cartLines s userId
  if lines.isEmpty then (s, .emptyCart)
  else
    let total := lines.foldr (fun l acc => acc + l.quantity * l.priceCents) 0
    let oid := nextOrderId s
    let s1 : Db := { s with orders := s.orders ++
      [{ id := oid, userId := userId, status := OrderStatus.pending, totalCents := total,
         assignedCourierId := none }] }
    let s2 : Db := { s1 with orderItems := s1.orderItems ++ lines.map (fun l =>
      { orderId := oid, productId := l.productId, productName := l.name,
        quantity := l.quantity, unitPriceCents := l.priceCents }) }
    let s3 : Db := { s2 with cartItems := s2.cartItems.filter (fun ci =>
      !decide (ci.userId = userId)) }
    let s4 : Db := { s3 with orderEvents := s3.orderEvents ++
      [{ orderId := oid, status := OrderStatus.pending, comment := some "created",
         createdBy := some userId }] }
    match assignEnv s4 oid with
    | .ok (s5, _) => (s5, .ok (s5.orders.find? (fun o => decide (o.id = oid))))
    | .error _ => (s4, .serverError)

/-- The in-process behaviour of the assignment follow-up when the database
stays reachable: assignCourierIfPossible itself never raises. -/
def assignEnvLive : Db → Nat → Except Unit (Db × Option Nat) :=
  fun s oid => .ok (assignCourierIfPossible s oid)

/-- Environment in which the assignment step raises (database failure
after the creating transaction committed). -/
def assignEnvDown : Db → Nat → Except Unit (Db × Option Nat) :=
  fun _ _ => .error ()

/-- Request body of POST /api/couriers/connect. -/
structure ConnectBody where
  vehicleType : Option String
  status : Option String
  userId : Option Nat
deriving DecidableEq, Repr

inductive ConnectResult
  | noPermission
  | userNotFound
  | needVerification
  | connected (courierId : Nat) (status : CourierStatus)
deriving DecidableEq, Repr

/-- The status normalisation of the connect handler (line 2727): a valid
requested status is kept, anything else (including absence) becomes
available. -/
def parseConnectStatus : Option String → CourierStatus
  | some "offline" => CourierStatus.offline
  | some "available" => CourierStatus.available
  | some "busy" => CourierStatus.busy
  | _ => CourierStatus.available

def nextCourierId (s : Db) : Nat :=
  s.couriers.foldr (fun c m => Nat.max c.id m) 0 + 1

/-- body.vehicleType || courier.vehicle_type || (the string bike), with JS
falsiness on empty strings. -/
def jsVehicle (bodyV curV : Option String) : Option String :=
  if truthyStr bodyV then bodyV else if truthyStr curV then curV else some "bike"

/-- POST /api/couriers/connect (lines 2710-2745) together with
getOrCreateCourierForUser (lines 221-248).  adminManageCouriers is the
outcome of the permission check consulted only for an admin acting on
another user.  Note the role promotion and the lazy profile creation run
before the verification gate, and there is no rollback: they persist even
when the handler then answers 403. -/
def couriersConnect (s : Db) (caller : Caller) (body : ConnectBody)
    (adminManageCouriers : Bool) : Db × ConnectResult :=
  let target : Nat :=
    if caller.role = Role.admin ∧ body.userId.isSome then body.userId.getD caller.id
    else caller.id
  if decide (caller.role = Role.admin) && body.userId.isSome && !adminManageCouriers then
    (s, .noPermission)
  else
    match s.users.find? (fun u => decide (u.id = target)) with
    | none => (s, .userNotFound)
    | some user =>
        let s1 : Db :=
          if user.role ≠ Role.courier then
            { s with users := s.users.map (fun u =>
                if u.id = target then { u with role := Role.courier } else u) }
          else s
        let found := s1.couriers.find? (fun c => decide (c.userId = target))
        let courier : Courier :=
          match found with
          | some c => c
          | none =>
              { id := nextCourierId s1, userId := target, vehicleType := some "bike",
                status := CourierStatus.offline, verificationStatus := VerifStatus.pending,
                transportLicense := none, vehicleRegistrationNumber := none,
                techPassportImageUrl := none, maxActiveOrders := 5 }
        let s2 : Db :=
          match found with
          | some _ => s1
          | none => { s1 with couriers := s1.couriers ++ [courier] }
        let nextStatus := parseConnectStatus body.status
        if nextStatus = CourierStatus.available ∧ ¬ courierEligible courier then
          (s2, .needVerification)
        else
          let s3 : Db := { s2 with couriers := s2.couriers.map (fun c =>
            if c.id = courier.id then
              { c with vehicleType := jsVehicle body.vehicleType courier.vehicleType,
                       status := nextStatus }
            else c) }
          let s4 : Db :=
            if nextStatus = CourierStatus.available then (tryAssignOldestPendingOrder s3).1
            else s3
          (s4, .connected courier.id nextStatus)

/-! ## Order claim states and theorems -/

/-- State with one pending order (id 1, customer 10) and two couriers:
courier 1 (user 20) is offline but fully verified; courier 2 (user 21) is
available with spare capacity but unverified. -/
def dbA : Db :=
  { users := [{ id := 10, role := Role.customer }, { id := 20, role := Role.courier },
              { id := 21, role := Role.courier }]
    products := []
    warehouses := []
    stock := []
    movements := []
    orders := [{ id := 1, userId := 10, status := OrderStatus.pending, totalCents := 100,
                 assignedCourierId := none }]
    orderItems := []
    orderEvents := []
    couriers :=
      [{ id := 1, userId := 20, vehicleType := some "bike", status := CourierStatus.offline,
         verificationStatus := VerifStatus.approved, transportLicense := some "L",
         vehicleRegistrationNumber := some "R", techPassportImageUrl := some "T",
         maxActiveOrders := 5 },
       { id := 2, userId := 21, vehicleType := some "bike", status := CourierStatus.available,
         verificationStatus := VerifStatus.pending, transportLicense := none,
         vehicleRegistrationNumber := none, techPassportImageUrl := none,
         maxActiveOrders := 5 }]
    tasks := []
    taskItems := []
    cartItems := [] }

/-- C1 is false as stated: after courier 1 successfully claims order 1 (the
order is now assigned, not pending), a dispatch trigger running
assignCourierIfPossible on the same order also succeeds — its UPDATE has no
pending/unassigned guard — and silently reassigns the order to courier 2.
Two calls against the same initially pending order both succeeded and the
second was neither an OrderUnavailable failure nor a no-op. -/
theorem claim_then_auto_reassigns :
    (ordersClaim dbA 20 1).2 = ClaimResult.claimed 1 ∧
    ((ordersClaim dbA 20 1).1.orders.map Order.assignedCourierId = [some 1]) ∧
    (assignCourierIfPossible (ordersClaim dbA 20 1).1 1).2 = some 2 ∧
    ((assignCourierIfPossible (ordersClaim dbA 20 1).1 1).1.orders.map
      Order.assignedCourierId = [some 2]) := by
  decide

/-- State with a delivered order (id 7) owned by customer 10 and no pending
orders. -/
def dbB : Db :=
  { users := [{ id := 10, role := Role.customer }]
    products := []
    warehouses := []
    stock := []
    movements := []
    orders := [{ id := 7, userId := 10, status := OrderStatus.delivered, totalCents := 100,
                 assignedCourierId := none }]
    orderItems := []
    orderEvents := []
    couriers := []
    tasks := []
    taskItems := []
    cartItems := [] }

/-- C4 is false as stated: the status endpoint never inspects the current
status, so customer 10 cancelling their own already-delivered order 7 is
accepted and moves the order out of the terminal state delivered, where the
claim requires a ForbiddenTransition rejection and terminal immutability. -/
theorem customer_cancels_delivered_order :
    (ordersPatchStatus dbB { id := 10, role := Role.customer } 7 OrderStatus.cancelled none).2 =
      SetStatusResult.ok (some { id := 7, userId := 10, status := OrderStatus.cancelled,
                                 totalCents := 100, assignedCourierId := none }) ∧
    ((ordersPatchStatus dbB { id := 10, role := Role.customer } 7
        OrderStatus.cancelled none).1.orders.map Order.status = [OrderStatus.cancelled]) := by
  decide

/-- State with customer 10 holding a cart of two units of product 1 and no
couriers. -/
def dbC : Db :=
  { users := [{ id := 10, role := Role.customer }]
    products := [{ id := 1, name := "P1", priceCents := 100, inStock := true, stockQuantity := 5 }]
    warehouses := []
    stock := []
    movements := []
    orders := []
    orderItems := []
    orderEvents := []
    couriers := []
    tasks := []
    taskItems := []
    cartItems := [{ userId := 10, productId := 1, quantity := 2 }]
    }

/-- C8 is false in its last part: when the post-commit assignment call
raises, the catch block of the creation handler answers 500 to the customer
even though the order survived (the claim is right that it is not rolled
back: it stays pending with its item written and the cart emptied, since the
ROLLBACK after COMMIT is a no-op). -/
theorem create_order_assign_failure_surfaces_500 :
    (ordersCreate assignEnvDown dbC 10).2 = CreateOrderResult.serverError ∧
    ((ordersCreate assignEnvDown dbC 10).1.orders =
      [{ id := 1, userId := 10, status := OrderStatus.pending, totalCents := 200,
         assignedCourierId := none }]) ∧
    ((ordersCreate assignEnvDown dbC 10).1.orderItems =
      [{ orderId := 1, productId := 1, productName := "P1", quantity := 2,
         unitPriceCents := 100 }]) ∧
    (ordersCreate assignEnvDown dbC 10).1.cartItems = [] := by
  decide

/-! ## C9: characterisation of the courier selection -/

/-- Spec-side description of the candidate pool: exactly the couriers whose
status is available, in enumeration order, each paired with its count of
assigned/picked_up/on_the_way orders, keeping those strictly under their
max_active_orders. -/
def qualifiedCandidates (s : Db) : List (Nat × Nat) :=
  (availableCouriers s).filterMap (fun c =>
    if getActiveOrderCountForCourier s c.id < c.maxActiveOrders then
      some (c.id, getActiveOrderCountForCourier s c.id)
    else none)

/-- Spec-side description of the choice: the candidate with the smallest
count, the first one encountered winning ties. -/
def firstMinByActive : List (Nat × Nat) → Option (Nat × Nat)
  | [] => none
  | x :: xs =>
      match firstMinByActive xs with
      | none => some x
      | some y => if y.2 < x.2 then some y else some x

/-- Combine an accumulator (an earlier candidate) with the best of the rest:
the later candidate wins only with a strictly smaller count. -/
def mergeSel : Option (Nat × Nat) → Option (Nat × Nat) → Option (Nat × Nat)
  | sel, none => sel
  | none, some z => some z
  | some y, some z => if z.2 < y.2 then some z else some y

theorem mergeSel_none_left (x : Option (Nat × Nat)) : mergeSel none x = x := by
  cases x <;> rfl

theorem selectLoop_eq_mergeSel (s : Db) (sel : Option (Nat × Nat)) (l : List Courier) :
    selectLoop s sel l = mergeSel sel (firstMinByActive (l.filterMap (fun c =>
      if getActiveOrderCountForCourier s c.id < c.maxActiveOrders then
        some (c.id, getActiveOrderCountForCourier s c.id)
      else none))) := by
  induction l generalizing sel with
  | nil => cases sel <;> rfl
  | cons c rest ih =>
      by_cases hq : getActiveOrderCountForCourier s c.id < c.maxActiveOrders
      · have hskip : ¬ c.maxActiveOrders ≤ getActiveOrderCountForCourier s c.id := by omega
        cases sel with
        | none =>
            simp only [selectLoop, if_neg hskip, List.filterMap_cons, if_pos hq, ih,
              firstMinByActive]
            cases hrest : firstMinByActive (rest.filterMap (fun c =>
                if getActiveOrderCountForCourier s c.id < c.maxActiveOrders then
                  some (c.id, getActiveOrderCountForCourier s c.id)
                else none)) with
            | none => simp [mergeSel]
            | some y =>
                by_cases hy : y.2 < getActiveOrderCountForCourier s c.id <;>
                  simp [mergeSel, hy, mergeSel_none_left]
        | some y0 =>
            simp only [selectLoop, if_neg hskip, List.filterMap_cons, if_pos hq,
              firstMinByActive]
            cases hrest : firstMinByActive (rest.filterMap (fun c =>
                if getActiveOrderCountForCourier s c.id < c.maxActiveOrders then
                  some (c.id, getActiveOrderCountForCourier s c.id)
                else none)) with
            | none =>
                by_cases hcy : getActiveOrderCountForCourier s c.id < y0.2 <;>
                  simp [ih, hrest, mergeSel, hcy]
            | some z =>
                by_cases hza : z.2 < getActiveOrderCountForCourier s c.id <;>
                by_cases hcy : getActiveOrderCountForCourier s c.id < y0.2 <;>
                by_cases hzy : z.2 < y0.2 <;>
                  simp [ih, hrest, mergeSel, hza, hcy, hzy] <;> omega
      · have hskip : c.maxActiveOrders ≤ getActiveOrderCountForCourier s c.id := by omega
        simp only [selectLoop, if_pos hskip, List.filterMap_cons, if_neg hq, ih]

/-- C9: the selection of assignCourierIfPossible considers exactly the
available couriers, pairs each with its active order count, discards those
at or over max_active_orders, and returns the remaining candidate with the
smallest count, the first one encountered in enumeration order winning
ties; when no candidate qualifies it makes no assignment and the state (in
particular the pending order) is untouched. -/
theorem courier_selection_policy (s : Db) (oid : Nat) :
    selectLoop s none (availableCouriers s) = firstMinByActive (qualifiedCandidates s) ∧
    (selectLoop s none (availableCouriers s) = none →
      assignCourierIfPossible s oid = (s, none)) := by
  constructor
  · rw [selectLoop_eq_mergeSel s none (availableCouriers s), mergeSel_none_left,
      qualifiedCandidates]
  · intro h
    simp [assignCourierIfPossible, h]

/-- Concrete corollary of the selection characterisation: with no courier at
all, the selection is empty and dispatch leaves the state untouched. -/
theorem courier_selection_policy_witness :
    assignCourierIfPossible dbB 1 = (dbB, none) :=
  (courier_selection_policy dbB 1).2 (by decide)

/-! ## C1 amended: the manual claim is a compare-and-swap -/

/-- C1 amended: only the manual claim endpoint performs the compare-and-swap.
A claim reports success only when a pending row with no assigned courier
existed for that id at the update; and when no such row exists the call
leaves the database unchanged and does not report success (it answers
OrderUnavailable, or fails one of the earlier courier checks).  The
automatic assignCourierIfPossible performs no such check and can reassign
an already assigned order. -/
theorem ordersClaim_cas (s : Db) (u oid : Nat) :
    (∀ r, (ordersClaim s u oid).2 = ClaimResult.claimed r →
      ∃ o ∈ s.orders, o.id = oid ∧ o.status = OrderStatus.pending ∧
        o.assignedCourierId = none) ∧
    ((∀ o ∈ s.orders, o.id = oid →
        ¬(o.status = OrderStatus.pending ∧ o.assignedCourierId = none)) →
      (ordersClaim s u oid).1 = s ∧
      ∀ r, (ordersClaim s u oid).2 ≠ ClaimResult.claimed r) := by
  constructor
  · intro r hr
    by_cases h0 : oid = 0
    · simp [ordersClaim, h0] at hr
    · cases hc : s.couriers.find? (fun c => decide (c.userId = u)) with
      | none => simp [ordersClaim, h0, hc] at hr
      | some courier =>
          by_cases he : courierEligible courier
          · by_cases hl : courier.maxActiveOrders ≤ getActiveOrderCountForCourier s courier.id
            · simp [ordersClaim, h0, hc, he, hl] at hr
            · cases hf : s.orders.find? (fun o => decide (o.id = oid) &&
                  decide (o.status = OrderStatus.pending) && o.assignedCourierId.isNone) with
              | none => simp [ordersClaim, h0, hc, he, hl, hf] at hr
              | some o =>
                  have hmem := List.mem_of_find?_eq_some hf
                  have hp := List.find?_some hf
                  simp only [Bool.and_eq_true, decide_eq_true_eq,
                    Option.isNone_iff_eq_none] at hp
                  exact ⟨o, hmem, hp.1.1, hp.1.2, hp.2⟩
          · simp [ordersClaim, h0, hc, he] at hr
  · intro hno
    have hf : s.orders.find? (fun o => decide (o.id = oid) &&
        decide (o.status = OrderStatus.pending) && o.assignedCourierId.isNone) = none := by
      rw [List.find?_eq_none]
      intro o ho
      simp only [Bool.and_eq_true, decide_eq_true_eq, Option.isNone_iff_eq_none, not_and]
      intro h1 h2
      exact absurd ⟨h1.2, h2⟩ (hno o ho h1.1)
    by_cases h0 : oid = 0
    · simp [ordersClaim, h0]
    · cases hc : s.couriers.find? (fun c => decide (c.userId = u)) with
      | none => simp [ordersClaim, h0, hc]
      | some courier =>
          by_cases he : courierEligible courier
          · by_cases hl : courier.maxActiveOrders ≤ getActiveOrderCountForCourier s courier.id
            · simp [ordersClaim, h0, hc, he, hl]
            · simp [ordersClaim, h0, hc, he, hl, hf]
          · simp [ordersClaim, h0, hc, he]

/-- The CAS theorem applied to a concrete state: order 7 of dbB is delivered,
so a claim attempt leaves the database unchanged and reports no success. -/
theorem ordersClaim_cas_witness :
    (ordersClaim dbB 20 7).1 = dbB ∧
    ∀ r, (ordersClaim dbB 20 7).2 ≠ ClaimResult.claimed r :=
  (ordersClaim_cas dbB 20 7).2 (by decide)

/-- The terminal theorem applied concretely: requesting cancelled on the
done task 1 of db3 is rejected with TerminalTaskImmutable and the state is
untouched. -/
theorem pickTaskPatch_terminal_witness :
    pickTaskPatch db3 9 1 TaskStatus.cancelled none 99 =
      (db3, PatchTaskResult.terminalTaskImmutable) :=
  (pickTaskPatch_terminal db3 9 1 TaskStatus.cancelled none 99
    { id := 1, orderId := 1, warehouseId := 1, status := TaskStatus.done,
      assignedTo := some 7, createdBy := 9, startedAt := some 5, completedAt := some 10 }
    (by decide) (by decide) (Or.inl rfl)).1 (by decide)

/-! ## C4 amended: the status gate ignores the current status -/

/-- Spec-side statement of the gate the endpoint actually implements: a
customer may write cancelled on their own order, a courier with a profile
may write picked_up/on_the_way/delivered on an order assigned to them while
eligible, an admin may write any of the six statuses; the current status of
the order is never consulted. -/
def specStatusGate (s : Db) (caller : Caller) (order : Order) (target : OrderStatus) : Bool :=
  match caller.role with
  | Role.customer =>
      decide (order.userId = caller.id) && decide (target = OrderStatus.cancelled)
  | Role.courier =>
      match s.couriers.find? (fun c => decide (c.userId = caller.id)) with
      | none => false
      | some c =>
          decide (order.assignedCourierId = some c.id) &&
            (decide (target = OrderStatus.picked_up) ||
              decide (target = OrderStatus.on_the_way) ||
              decide (target = OrderStatus.delivered)) &&
            courierEligible c
  | Role.admin => true

/-- Rows of other ids survive a dispatch assignment unchanged. -/
theorem assign_preserves_ne_id (s : Db) (oid2 : Nat) (o : Order)
    (ho : o ∈ (assignCourierIfPossible s oid2).1.orders) (hne : o.id ≠ oid2) :
    o ∈ s.orders := by
  unfold assignCourierIfPossible at ho
  cases hsel : selectLoop s none (availableCouriers s) with
  | none => rw [hsel] at ho; exact ho
  | some sel =>
      rw [hsel] at ho
      simp only [List.mem_map] at ho
      obtain ⟨x, hx, hfx⟩ := ho
      by_cases hx2 : x.id = oid2
      · exfalso
        apply hne
        rw [← hfx]
        simpa [hx2] using hx2
      · rw [← hfx]
        simpa [hx2] using hx

/-- The value returned by the oldest-pending query is the id of a pending
unassigned order row. -/
theorem foldr_min_mem (l : List Nat) (i : Nat)
    (h : l.foldr (fun i acc =>
        match acc with
        | none => some i
        | some j => some (if i ≤ j then i else j)) none = some i) :
    i ∈ l := by
  induction l generalizing i with
  | nil => simp at h
  | cons x xs ih =>
      simp only [List.foldr_cons] at h
      cases hacc : xs.foldr (fun i acc =>
          match acc with
          | none => some i
          | some j => some (if i ≤ j then i else j)) none with
      | none =>
          rw [hacc] at h
          simp only [Option.some.injEq] at h
          subst h
          exact List.mem_cons_self x xs
      | some j =>
          rw [hacc] at h
          simp only [Option.some.injEq] at h
          by_cases hxj : x ≤ j
          · rw [if_pos hxj] at h
            rw [← h]; exact List.mem_cons_self x xs
          · rw [if_neg hxj] at h
            rw [← h]; exact List.mem_cons_of_mem x (ih j hacc)

theorem oldestPendingId_spec (s : Db) (i : Nat) (h : oldestPendingId s = some i) :
    ∃ o ∈ s.orders, o.id = i ∧ o.status = OrderStatus.pending ∧
      o.assignedCourierId = none := by
  unfold oldestPendingId at h
  have hmem := foldr_min_mem _ _ h
  simp only [List.mem_map, List.mem_filter, Bool.and_eq_true, Option.isNone_iff_eq_none,
    decide_eq_true_eq] at hmem
  obtain ⟨o, ⟨ho, hnone, hpend⟩, hid⟩ := hmem
  exact ⟨o, ho, hid, hpend, hnone⟩

/-- If every row of the written id already carries the terminal target
status then the dispatch backfill cannot touch those rows. -/
theorem backfill_keeps_target (s2 : Db) (oid : Nat) (target : OrderStatus)
    (hterm : target = OrderStatus.delivered ∨ target = OrderStatus.cancelled)
    (hP : ∀ o ∈ s2.orders, o.id = oid → o.status = target) :
    ∀ o ∈ (tryAssignOldestPendingOrder s2).1.orders, o.id = oid → o.status = target := by
  intro o ho hid
  unfold tryAssignOldestPendingOrder at ho
  cases hold : oldestPendingId s2 with
  | none => rw [hold] at ho; exact hP o ho hid
  | some oid2 =>
      rw [hold] at ho
      have hne : oid2 ≠ oid := by
        obtain ⟨p, hp, hpid, hpst, _⟩ := oldestPendingId_spec s2 oid2 hold
        intro he
        have hpt := hP p hp (he ▸ hpid)
        rw [hpst] at hpt
        rcases hterm with h | h <;> rw [h] at hpt <;> cases hpt
      have hmem : o ∈ s2.orders :=
        assign_preserves_ne_id s2 oid2 o ho (by rw [hid]; exact fun he => hne he.symm)
      exact hP o hmem hid

/-- Gate refused: the request answers forbidden and the state is unchanged. -/
theorem patch_forbidden_of_gate_false (s : Db) (cid : Nat) (crole : Role) (oid : Nat)
    (target : OrderStatus) (comment : Option String) (order : Order)
    (hoid : oid ≠ 0)
    (hfind : s.orders.find? (fun o => decide (o.id = oid)) = some order)
    (hg : specStatusGate s ⟨cid, crole⟩ order target = false) :
    ordersPatchStatus s ⟨cid, crole⟩ oid target comment = (s, SetStatusResult.forbidden) := by
  cases crole with
  | customer =>
      by_cases h1 : order.userId = cid <;> by_cases h2 : target = OrderStatus.cancelled
      · simp [specStatusGate, h1, h2] at hg
      · simp [ordersPatchStatus, if_neg hoid, hfind, h1, h2]
      · simp [ordersPatchStatus, if_neg hoid, hfind, h1, h2]
      · simp [ordersPatchStatus, if_neg hoid, hfind, h1, h2]
  | courier =>
      cases hc : s.couriers.find? (fun c => decide (c.userId = cid)) with
      | none => simp [ordersPatchStatus, if_neg hoid, hfind, hc]
      | some c =>
          by_cases h1 : order.assignedCourierId = some c.id <;>
          by_cases h2 : (decide (target = OrderStatus.picked_up) ||
              decide (target = OrderStatus.on_the_way) ||
              decide (target = OrderStatus.delivered)) = true <;>
          by_cases h3 : courierEligible c = true
          · simp [specStatusGate, hc, h1, h2, h3] at hg
          all_goals
            simp_all [ordersPatchStatus, if_neg hoid, hfind, hc, h1]
  | admin => simp [specStatusGate] at hg

/-- The write phase always reports ok and leaves the target status on every
row of the written order id (the backfill cannot undo a terminal write). -/
theorem patchStatusCommit_spec (s : Db) (callerId oid : Nat) (target : OrderStatus)
    (comment : Option String) :
    (∃ r, (patchStatusCommit s callerId oid target comment).2 = SetStatusResult.ok r) ∧
    ∀ o ∈ (patchStatusCommit s callerId oid target comment).1.orders,
      o.id = oid → o.status = target := by
  have hP1 : ∀ o ∈ s.orders.map (fun o =>
      if o.id = oid then { o with status := target } else o), o.id = oid → o.status = target := by
    intro o ho hid
    simp only [List.mem_map] at ho
    obtain ⟨x, hx, hfx⟩ := ho
    by_cases hxid : x.id = oid
    · rw [← hfx]; simp [hxid]
    · rw [← hfx] at hid
      simp [hxid] at hid
  refine ⟨⟨_, rfl⟩, ?_⟩
  intro o ho hid
  simp only [patchStatusCommit] at ho
  by_cases ht : target = OrderStatus.delivered ∨ target = OrderStatus.cancelled
  · rw [if_pos ht] at ho
    exact backfill_keeps_target _ oid target ht hP1 o ho hid
  · rw [if_neg ht] at ho
    exact hP1 o ho hid

/-- Gate passed: the request is accepted and the target status is written on
every row of that order id. -/
theorem patch_ok_of_gate_true (s : Db) (cid : Nat) (crole : Role) (oid : Nat)
    (target : OrderStatus) (comment : Option String) (order : Order)
    (hoid : oid ≠ 0)
    (hfind : s.orders.find? (fun o => decide (o.id = oid)) = some order)
    (hg : specStatusGate s ⟨cid, crole⟩ order target = true) :
    (∃ r, (ordersPatchStatus s ⟨cid, crole⟩ oid target comment).2 = SetStatusResult.ok r) ∧
    ∀ o ∈ (ordersPatchStatus s ⟨cid, crole⟩ oid target comment).1.orders,
      o.id = oid → o.status = target := by
  have hred : ordersPatchStatus s ⟨cid, crole⟩ oid target comment =
      patchStatusCommit s cid oid target comment := by
    cases crole with
    | customer =>
        by_cases h1 : order.userId = cid <;> by_cases h2 : target = OrderStatus.cancelled
        · simp [ordersPatchStatus, if_neg hoid, hfind, h1, h2]
        all_goals simp [specStatusGate, h1, h2] at hg
    | courier =>
        cases hc : s.couriers.find? (fun c => decide (c.userId = cid)) with
        | none => simp [specStatusGate, hc] at hg
        | some c =>
            by_cases h1 : order.assignedCourierId = some c.id <;>
            by_cases h2 : (decide (target = OrderStatus.picked_up) ||
                decide (target = OrderStatus.on_the_way) ||
                decide (target = OrderStatus.delivered)) = true <;>
            by_cases h3 : courierEligible c = true
            · simp [ordersPatchStatus, if_neg hoid, hfind, hc, h1, h2, h3]
            all_goals simp [specStatusGate, hc, h1, h2, h3] at hg
    | admin =>
        simp [ordersPatchStatus, if_neg hoid, hfind]
  rw [hred]
  exact patchStatusCommit_spec s cid oid target comment

/-- C4 amended: the endpoint accepts a status write based only on role,
ownership or assignment, courier eligibility and the target status — never
on the current status: a customer writes cancelled on their own order
(active or not), an eligible assigned courier writes
picked_up/on_the_way/delivered in any order from any current status, an
admin writes any of the six statuses.  A rejected request answers forbidden
with the state unchanged; an accepted one writes the target status. -/
theorem ordersPatchStatus_gate (s : Db) (cid : Nat) (crole : Role) (oid : Nat)
    (target : OrderStatus) (comment : Option String) (order : Order)
    (hoid : oid ≠ 0)
    (hfind : s.orders.find? (fun o => decide (o.id = oid)) = some order) :
    ((∃ r, (ordersPatchStatus s ⟨cid, crole⟩ oid target comment).2 = SetStatusResult.ok r) ↔
      specStatusGate s ⟨cid, crole⟩ order target = true) ∧
    (specStatusGate s ⟨cid, crole⟩ order target = false →
      ordersPatchStatus s ⟨cid, crole⟩ oid target comment = (s, SetStatusResult.forbidden)) ∧
    (specStatusGate s ⟨cid, crole⟩ order target = true →
      ∀ o ∈ (ordersPatchStatus s ⟨cid, crole⟩ oid target comment).1.orders,
        o.id = oid → o.status = target) := by
  refine ⟨⟨?_, ?_⟩, ?_, ?_⟩
  · intro hok
    by_cases hg : specStatusGate s ⟨cid, crole⟩ order target = true
    · exact hg
    · obtain ⟨r, hr⟩ := hok
      rw [patch_forbidden_of_gate_false s cid crole oid target comment order hoid hfind
        (Bool.eq_false_iff.mpr hg)] at hr
      cases hr
  · intro hg
    exact (patch_ok_of_gate_true s cid crole oid target comment order hoid hfind hg).1
  · exact patch_forbidden_of_gate_false s cid crole oid target comment order hoid hfind
  · intro hg
    exact (patch_ok_of_gate_true s cid crole oid target comment order hoid hfind hg).2

/-- The gate theorem applied concretely: in dbB the admin caller may write
on_the_way on order 7, and the write lands. -/
theorem ordersPatchStatus_gate_witness :
    (∃ r, (ordersPatchStatus dbB ⟨9, Role.admin⟩ 7
        OrderStatus.on_the_way none).2 = SetStatusResult.ok r) ∧
    ∀ o ∈ (ordersPatchStatus dbB ⟨9, Role.admin⟩ 7
        OrderStatus.on_the_way none).1.orders, o.id = 7 → o.status = OrderStatus.on_the_way := by
  have h := ordersPatchStatus_gate dbB 9 Role.admin 7
    OrderStatus.on_the_way none
    { id := 7, userId := 10, status := OrderStatus.delivered, totalCents := 100,
      assignedCourierId := none } (by decide) (by decide)
  exact ⟨h.1.mpr (by decide), h.2.2 (by decide)⟩

/-! ## C8 amended: commit durability versus the surfaced error -/

/-- C8 amended: the creating transaction is durable — whatever the
follow-up assignment does, the new pending order, its item snapshot and the
emptied cart survive, because the COMMIT precedes the assignment call and
the catch-block ROLLBACK is a no-op — but when the assignment raises, the
handler catch block answers 500 to the customer, so the failure is
surfaced after all. -/
theorem ordersCreate_commit_durable (s : Db) (userId : Nat)
    (env : Db → Nat → Except Unit (Db × Option Nat))
    (hcart : (cartLines s userId).isEmpty = false)
    (henv : ∀ s2 oid2, env s2 oid2 = .error ()) :
    (ordersCreate env s userId).2 = CreateOrderResult.serverError ∧
    (∃ o ∈ (ordersCreate env s userId).1.orders,
       o.id = nextOrderId s ∧ o.userId = userId ∧ o.status = OrderStatus.pending) ∧
    (ordersCreate env s userId).1.cartItems.filter
      (fun ci => decide (ci.userId = userId)) = [] ∧
    ∀ l ∈ cartLines s userId,
      ({ orderId := nextOrderId s, productId := l.productId, productName := l.name,
         quantity := l.quantity, unitPriceCents := l.priceCents } : OrderItem) ∈
        (ordersCreate env s userId).1.orderItems := by
  refine ⟨?_, ?_, ?_, ?_⟩
  · simp [ordersCreate, hcart, henv]
  · refine ⟨{ id := nextOrderId s, userId := userId, status := OrderStatus.pending,
              totalCents := (cartLines s userId).foldr (fun l acc =>
                               acc + l.quantity * l.priceCents) 0,
              assignedCourierId := none }, ?_, rfl, rfl, rfl⟩
    simp [ordersCreate, hcart, henv]
  · simp only [ordersCreate, hcart, henv, Bool.false_eq_true, if_false]
    rw [List.filter_eq_nil_iff]
    intro ci hci
    simp only [List.mem_filter, Bool.not_eq_true] at hci
    simpa using hci.2
  · intro l hl
    simp only [ordersCreate, hcart, henv, Bool.false_eq_true, if_false, List.mem_append,
      List.mem_map]
    exact Or.inr ⟨l, hl, rfl⟩

/-- The durability theorem applied to the concrete state dbC with a raising
assignment environment. -/
theorem ordersCreate_commit_durable_witness :
    (ordersCreate assignEnvDown dbC 10).2 = CreateOrderResult.serverError ∧
    (∃ o ∈ (ordersCreate assignEnvDown dbC 10).1.orders,
       o.id = nextOrderId dbC ∧ o.userId = 10 ∧ o.status = OrderStatus.pending) ∧
    (ordersCreate assignEnvDown dbC 10).1.cartItems.filter
      (fun ci => decide (ci.userId = 10)) = [] ∧
    ∀ l ∈ cartLines dbC 10,
      ({ orderId := nextOrderId dbC, productId := l.productId, productName := l.name,
         quantity := l.quantity, unitPriceCents := l.priceCents } : OrderItem) ∈
        (ordersCreate assignEnvDown dbC 10).1.orderItems :=
  ordersCreate_commit_durable dbC 10 assignEnvDown (by decide) (fun _ _ => rfl)

/-! ## C10: the connect endpoint promotes any caller to courier -/

/-- C10: a non-courier caller (acting on themselves) whose connect call
succeeds ends up with role courier, and the lazily created profile carries
the defaults — verification pending, max_active_orders 5, vehicle bike
unless overridden — with the requested availability status applied on top;
since the fresh profile is unverified, the accepted status is never
available (that request is turned away with a verification error, though
the role promotion persists even then). -/
theorem couriersConnect_promotes (s : Db) (cid : Nat) (crole : Role) (body : ConnectBody)
    (perm : Bool) (user : User)
    (htarget : crole ≠ Role.admin ∨ body.userId = none)
    (huser : s.users.find? (fun u => decide (u.id = cid)) = some user)
    (hrole : user.role ≠ Role.courier)
    (hnoc : s.couriers.find? (fun c => decide (c.userId = cid)) = none)
    (cid2 : Nat) (st : CourierStatus)
    (hok : (couriersConnect s ⟨cid, crole⟩ body perm).2 = ConnectResult.connected cid2 st) :
    st = parseConnectStatus body.status ∧
    st ≠ CourierStatus.available ∧
    (∀ u ∈ (couriersConnect s ⟨cid, crole⟩ body perm).1.users,
      u.id = cid → u.role = Role.courier) ∧
    ∃ c ∈ (couriersConnect s ⟨cid, crole⟩ body perm).1.couriers,
      c.id = cid2 ∧ c.userId = cid ∧ c.verificationStatus = VerifStatus.pending ∧
      c.maxActiveOrders = 5 ∧ c.status = st ∧
      c.vehicleType = jsVehicle body.vehicleType (some "bike") := by
  have hB : ¬(crole = Role.admin ∧ body.userId.isSome = true) := by
    rcases htarget with hna | hun
    · exact fun h => hna h.1
    · intro h
      rw [hun] at h
      exact absurd h.2 (by simp)
  have hA : (decide (crole = Role.admin) && body.userId.isSome && !perm) = false := by
    rcases htarget with hna | hun
    · simp [hna]
    · simp [hun]
  by_cases hav : parseConnectStatus body.status = CourierStatus.available
  · exfalso
    simp [couriersConnect, hB, hA, huser, hnoc, hrole, hav, courierEligible, truthyStr] at hok
  · have hok2 := hok
    simp [couriersConnect, hB, hA, huser, hnoc, hrole, hav, courierEligible, truthyStr] at hok2
    refine ⟨hok2.2.symm, ?_, ?_, ?_⟩
    · rw [← hok2.2]; exact hav
    · intro u hu hid
      simp [couriersConnect, hB, hA, huser, hnoc, hrole, hav, courierEligible, truthyStr] at hu
      obtain ⟨a, ha, hfa⟩ := hu
      by_cases haid : a.id = cid
      · rw [← hfa]
        simp [haid]
      · rw [← hfa] at hid
        simp [haid] at hid
    · simp [couriersConnect, hB, hA, huser, hnoc, hrole, hav, courierEligible, truthyStr]
      exact ⟨_, Or.inr rfl, hok2.1, rfl, rfl, rfl, hok2.2, rfl⟩

/-- The promotion theorem applied concretely: customer 10 of dbC connects
with requested status offline; the call succeeds, the role flips to courier
and the fresh profile carries the defaults with status offline. -/
theorem couriersConnect_promotes_witness :
    CourierStatus.offline = parseConnectStatus (some "offline") ∧
    CourierStatus.offline ≠ CourierStatus.available ∧
    (∀ u ∈ (couriersConnect dbC ⟨10, Role.customer⟩ ⟨none, some "offline", none⟩ false).1.users,
      u.id = 10 → u.role = Role.courier) ∧
    ∃ c ∈ (couriersConnect dbC ⟨10, Role.customer⟩ ⟨none, some "offline", none⟩ false).1.couriers,
      c.id = 1 ∧ c.userId = 10 ∧ c.verificationStatus = VerifStatus.pending ∧
      c.maxActiveOrders = 5 ∧ c.status = CourierStatus.offline ∧
      c.vehicleType = jsVehicle none (some "bike") :=
  couriersConnect_promotes dbC 10 Role.customer ⟨none, some "offline", none⟩ false
    ⟨10, Role.customer⟩ (Or.inl (by decide)) (by decide) (by decide) (by decide) 1
    CourierStatus.offline (by decide)

end Supermarket
